import Mathlib

/-!
Verification development for the prompt-evaluation utilities of this
repository (the two `setup_utils.py` files of module-02-fundamentals and
module-03-applications).  The Python functions relevant to the claims are
shallowly embedded below: text is `List Char`, Python regular expressions
are modelled by a small backtracking matcher (`RE`, `reSearch`) whose
greedy/lazy/alternation order mirrors CPython's `re` engine, exceptions are
modelled with `Except`, and the mutable provider/history state is passed
explicitly.  Python's `str.lower` is modelled for ASCII, which covers every
keyword and literal the code matches on.
-/

/-! ## Basic character and string helpers (Python `str` operations) -/

/-- ASCII lower-casing of one character, mirroring Python `str.lower` on the
ASCII range (all keyword tables and regex literals in the source are ASCII). -/
def lowerChar (c : Char) : Char :=
  if 'A' ≤ c ∧ c ≤ 'Z' then Char.ofNat (c.toNat + 32) else c

/-- Lower-case a whole text, as `prompt_text.lower()` does. -/
def lcList (s : List Char) : List Char := s.map lowerChar

/-- Lower-case a `String`, as `provider_name.lower()` does. -/
def pyLower (s : String) : String := String.mk (lcList s.data)

/-- Python `\s` (ASCII whitespace, the characters `str.strip` also removes). -/
def isPySpace (c : Char) : Bool :=
  c == ' ' || c == '\t' || c == '\n' || c == '\r' || c == '\x0b' || c == '\x0c'

/-- Case-sensitive list-prefix test. -/
def isPrefixCh : List Char → List Char → Bool
  | [], _ => true
  | _ :: _, [] => false
  | a :: as, b :: bs => a == b && isPrefixCh as bs

/-- Case-insensitive list-prefix test. -/
def isPrefixCI : List Char → List Char → Bool
  | [], _ => true
  | _ :: _, [] => false
  | a :: as, b :: bs => lowerChar a == lowerChar b && isPrefixCI as bs

/-- Python substring containment `needle in hay` (case sensitive). -/
def containsSub (n : List Char) : List Char → Bool
  | [] => n.isEmpty
  | h@(_ :: t) => isPrefixCh n h || containsSub n t

/-- Case-insensitive substring containment, modelling
`re.search(re.escape(tactic), text, re.IGNORECASE)`. -/
def containsSubCI (n : List Char) (h : List Char) : Bool :=
  containsSub (lcList n) (lcList h)

/-- Python `str.count` for a non-empty needle: non-overlapping occurrences,
scanning left to right.  Implemented with a fuel bounded by the hay length. -/
def countSubAux (n : List Char) : Nat → List Char → Nat
  | 0, _ => 0
  | _, [] => 0
  | fuel + 1, h@(_ :: t) =>
    if n.isEmpty then 0
    else if isPrefixCh n h then 1 + countSubAux n fuel (h.drop n.length)
    else countSubAux n fuel t

/-- Python `hay.count(needle)` for the non-empty needles used by the source. -/
def countSub (n h : List Char) : Nat := countSubAux n h.length h

/-- Python `str.strip()`: drop ASCII whitespace from both ends. -/
def pyStrip (s : List Char) : List Char :=
  ((s.dropWhile isPySpace).reverse.dropWhile isPySpace).reverse

/-- Numeric value of a digit run, as Python `int(match.group(1))`. -/
def natOfDigits (ds : List Char) : Nat :=
  ds.foldl (fun n c => n * 10 + (c.toNat - '0'.toNat)) 0

/-! ## A small backtracking regex engine

Only the constructs appearing in the source's patterns are supported:
literals, character classes, alternation, greedy and lazy star over a
character class, a greedy capturing `(\d+)`-style group, and the
`re.MULTILINE` end-of-line anchor `$`.  The matcher explores alternatives in
exactly CPython's order (left alternative first, greedy longest-first, lazy
shortest-first), and `reSearch` tries start positions left to right, so the
first reported match coincides with `re.search`. -/

inductive RE : Type where
  | eps : RE
  | ch (p : Char → Bool) : RE
  | seq (a b : RE) : RE
  | alt (a b : RE) : RE
  | starG (p : Char → Bool) : RE
  | starL (p : Char → Bool) : RE
  | plusCap (p : Char → Bool) : RE
  | eol : RE

/-- Greedy star over a character class: consume as many `p`-characters as
possible first, backtracking to fewer on failure of the continuation. -/
def starGRun (p : Char → Bool) (s : List Char) (k : List Char → Option (List Nat)) :
    Option (List Nat) :=
  match s with
  | [] => k []
  | c :: t => if p c then starGRun p t k <|> k (c :: t) else k (c :: t)

/-- Lazy star over a character class: try consuming nothing first, extending
one character at a time. -/
def starLRun (p : Char → Bool) (s : List Char) (k : List Char → Option (List Nat)) :
    Option (List Nat) :=
  k s <|>
    match s with
    | [] => none
    | c :: t => if p c then starLRun p t k else none

/-- Greedy capturing `(p+)`: one or more `p`-characters, longest first; the
consumed run is reported to the continuation as a number. -/
def plusCapRun (p : Char → Bool) (acc : List Char) (s : List Char)
    (k : Nat → List Char → Option (List Nat)) : Option (List Nat) :=
  match s with
  | [] => if acc.isEmpty then none else k (natOfDigits acc.reverse) []
  | c :: t =>
    if p c then
      plusCapRun p (c :: acc) t k <|>
        (if acc.isEmpty then none else k (natOfDigits acc.reverse) s)
    else if acc.isEmpty then none else k (natOfDigits acc.reverse) s

/-- Backtracking matcher in continuation style; `caps` accumulates the values
of capturing groups in left-to-right order. -/
def reMatch : RE → List Char → List Nat → (List Char → List Nat → Option (List Nat)) →
    Option (List Nat)
  | .eps, s, caps, k => k s caps
  | .ch p, s, caps, k =>
    match s with
    | [] => none
    | c :: t => if p c then k t caps else none
  | .seq a b, s, caps, k => reMatch a s caps fun s1 c1 => reMatch b s1 c1 k
  | .alt a b, s, caps, k => reMatch a s caps k <|> reMatch b s caps k
  | .starG p, s, caps, k => starGRun p s fun s1 => k s1 caps
  | .starL p, s, caps, k => starLRun p s fun s1 => k s1 caps
  | .plusCap p, s, caps, k => plusCapRun p [] s fun n s1 => k s1 (caps ++ [n])
  | .eol, s, caps, k =>
    match s with
    | [] => k s caps
    | c :: _ => if c == '\n' then k s caps else none

/-- `re.search`: try to match at every start position, left to right, and
return the captures of the first match found. -/
def reSearch (r : RE) : List Char → Option (List Nat)
  | [] => reMatch r [] [] fun _ caps => some caps
  | s@(_ :: t) => (reMatch r s [] fun _ caps => some caps) <|> reSearch r t

/-- First capturing group of the first match, as `int(m.group(1))`. -/
def reFind1 (r : RE) (s : List Char) : Option Nat :=
  (reSearch r s).bind fun caps => caps.head?

/-! ### Pattern constructors mirroring the regex syntax of the source -/

/-- Case-insensitive literal (a pattern compiled with `re.IGNORECASE`). -/
def litCI (s : String) : RE :=
  s.data.foldr (fun c r => RE.seq (RE.ch fun x => lowerChar x == lowerChar c) r) RE.eps

/-- Case-sensitive literal. -/
def litCS (s : String) : RE :=
  s.data.foldr (fun c r => RE.seq (RE.ch fun x => x == c) r) RE.eps

/-- Sequence of patterns. -/
def seqList (l : List RE) : RE := l.foldr RE.seq RE.eps

/-- Pattern `\s*`. -/
def wsStar : RE := RE.starG isPySpace

/-- Pattern `\s+`. -/
def wsPlus : RE := RE.seq (RE.ch isPySpace) (RE.starG isPySpace)

/-- Pattern `(\d+)`. -/
def capDigits : RE := RE.plusCap Char.isDigit

/-- Pattern `.*?` without `re.DOTALL` (does not cross newlines). -/
def dotStarLazy : RE := RE.starL fun c => c != '\n'

/-- Pattern `.*?` under `re.DOTALL`. -/
def dotAllStarLazy : RE := RE.starL fun _ => true

/-! ## Judgment Response Parser (`evaluate_prompt`, STEP 4)

The regexes below appear verbatim, with identical fallback order, in
`module-02-fundamentals/setup_utils.py` (lines 751-823) and in
`module-03-applications/setup_utils.py` (lines 1322-1379). -/

/-- Python `re.search(r'Traditional\s+Metrics:\s*(\d+)/100', t, re.IGNORECASE)`. -/
def reTraditional : RE :=
  seqList [litCI "traditional", wsPlus, litCI "metrics:", wsStar, capDigits, litCI "/100"]

/-- Python `re.search(r'Quality\s+Assessment:\s*(\d+)/100', t, re.IGNORECASE)`. -/
def reQuality : RE :=
  seqList [litCI "quality", wsPlus, litCI "assessment:", wsStar, capDigits, litCI "/100"]

/-- Python `re.search(r'Confidence\s+Score:\s*(\d+)/100', t, re.IGNORECASE)`. -/
def reConfidence : RE :=
  seqList [litCI "confidence", wsPlus, litCI "score:", wsStar, capDigits, litCI "/100"]

/-- Combined-score pattern 1: `re.search(r'Overall Score:\s*(\d+)/100', t, re.IGNORECASE)`. -/
def reOverall1 : RE :=
  seqList [litCI "overall score:", wsStar, capDigits, litCI "/100"]

/-- Combined-score pattern 2:
`re.search(r'(?:Weighted Combined|Overall)\s+Score[:\s=]*.*?=\s*(\d+)/100', t, re.IGNORECASE)`
(no `re.DOTALL`, so `.*?` stays within one line). -/
def reOverall2 : RE :=
  seqList [RE.alt (litCI "weighted combined") (litCI "overall"), wsPlus, litCI "score",
    RE.starG (fun c => c == ':' || isPySpace c || c == '='),
    dotStarLazy, litCI "=", wsStar, capDigits, litCI "/100"]

/-- Combined-score pattern 3:
`re.search(r'=\s*(\d+)/100\s*$', t.strip(), re.MULTILINE)`. -/
def reOverall3 : RE :=
  seqList [litCI "=", wsStar, capDigits, litCI "/100", wsStar, RE.eol]

/-- Extraction of `traditional_score` before backfill (0 when absent is applied
by `computeScores` below, mirroring `int(...) if match else 0`). -/
def extractTraditional (t : List Char) : Option Nat := reFind1 reTraditional t

/-- Extraction of `quality_score` before backfill. -/
def extractQuality (t : List Char) : Option Nat := reFind1 reQuality t

/-- Extraction of `confidence_score`. -/
def extractConfidence (t : List Char) : Option Nat := reFind1 reConfidence t

/-- Combined-score extraction with its three-pattern fallback chain and
default 70, exactly as in the source. -/
def extractCombined (t : List Char) : Nat :=
  match reFind1 reOverall1 t with
  | some n => n
  | none =>
    match reFind1 reOverall2 t with
    | some n => n
    | none =>
      match reFind1 reOverall3 (pyStrip t) with
      | some n => n
      | none => 70

/-! ### Section extraction (`_extract_section` and the skills fallback) -/

/-- Split at the first case-insensitive occurrence of `n`: returns the text
before the occurrence and the text after it. -/
def findCI (n : List Char) : List Char → Option (List Char × List Char)
  | [] => if n.isEmpty then some ([], []) else none
  | h@(c :: t) =>
    if isPrefixCI n h then some ([], h.drop n.length)
    else (findCI n t).map fun pr => (c :: pr.1, pr.2)

/-- Python `re.search(rf'<{name}>(.*?)</{name}>', s, re.DOTALL | re.IGNORECASE)`:
content between the first opening tag and the first closing tag after it
(the lazy group, searched leftmost). -/
def extractSectionCI (name : String) (s : List Char) : Option (List Char) :=
  (findCI ("<" ++ name ++ ">").data s).bind fun pr =>
    (findCI ("</" ++ name ++ ">").data pr.2).map fun pr2 => pr2.1

/-- Python helper `_extract_section`: the stripped section body, or `""`. -/
def extractSection (s : List Char) (name : String) : List Char :=
  ((extractSectionCI name s).map pyStrip).getD []

/-! ### Per-tactic score extraction -/

/-- Strict per-tactic pattern:
`rf'\*\*{re.escape(tactic)}\*\*.*?Quality Score:\s*(\d+)/10.*?Confidence:\s*(\d+)%'`
with `re.DOTALL | re.IGNORECASE` (both modules). -/
def reTacticStrict (tactic : String) : RE :=
  seqList [litCI "**", litCI tactic, litCI "**", dotAllStarLazy,
    litCI "quality score:", wsStar, capDigits, litCI "/10",
    dotAllStarLazy, litCI "confidence:", wsStar, capDigits, litCI "%"]

/-- Loose per-tactic pattern (module-02 only):
`rf'{re.escape(tactic)}.*?(?:Quality Score|Quality|Score):\s*(\d+)/10'`
with `re.DOTALL | re.IGNORECASE`. -/
def reTacticLoose (tactic : String) : RE :=
  seqList [litCI tactic, dotAllStarLazy,
    RE.alt (litCI "quality score") (RE.alt (litCI "quality") (litCI "score")),
    litCI ":", wsStar, capDigits, litCI "/10"]

/-- Both captures of the strict pattern: `(quality, confidence)`. -/
def tryStrictTactic (t : List Char) (tactic : String) : Option (Nat × Nat) :=
  (reSearch (reTacticStrict tactic) t).bind fun caps =>
    (caps.head?).bind fun q => (caps.get? 1).map fun c => (q, c)

/-- Stage 1: strict format with confidence, one entry per matching tactic,
in the order of `expected_tactics` (dict insertion order). -/
def tacticScoresStrict (tactics : List String) (t : List Char) :
    List (String × Nat × Nat) :=
  tactics.filterMap fun tac => (tryStrictTactic t tac).map fun qc => (tac, qc)

/-- Stage 2 (module-02 only): loose format, confidence defaulted to 85. -/
def tacticScoresLoose (tactics : List String) (t : List Char) :
    List (String × Nat × Nat) :=
  tactics.filterMap fun tac =>
    (reFind1 (reTacticLoose tac) t).map fun q => (tac, (q, 85))

/-- Final stage: scan the `skills_demonstrated` section; any expected tactic
mentioned there (case-insensitively) is credited quality 9, confidence 90. -/
def tacticScoresSkills (tactics : List String) (t : List Char) :
    List (String × Nat × Nat) :=
  match extractSectionCI "skills_demonstrated" t with
  | none => []
  | some skills =>
    tactics.filterMap fun tac =>
      if containsSubCI tac.data skills then some (tac, (9, 90)) else none

/-- Module-02 per-tactic extraction: strict, then loose, then skills
(each fallback guarded by `if not tactic_scores:`). -/
def tacticScoresM2 (tactics : List String) (t : List Char) :
    List (String × Nat × Nat) :=
  let s1 := tacticScoresStrict tactics t
  if s1.isEmpty then
    let s2 := tacticScoresLoose tactics t
    if s2.isEmpty then tacticScoresSkills tactics t else s2
  else s1

/-- Module-03 per-tactic extraction: strict, then directly skills — the loose
middle stage of module-02 does not exist in module-03. -/
def tacticScoresM3 (tactics : List String) (t : List Char) :
    List (String × Nat × Nat) :=
  let s1 := tacticScoresStrict tactics t
  if s1.isEmpty then tacticScoresSkills tactics t else s1

/-! ## Score assembly (`scores = {...}` in STEP 4, with backfill) -/

/-- Python key `f'uses_ + tactic.lower().replace(" ", "_")'` used to look up a
pattern-metrics boolean for the traditional-score backfill. -/
def flagKey (t : String) : String :=
  "uses_" ++ String.mk (t.data.map fun c => if c == ' ' then '_' else lowerChar c)

/-- Backfill for the traditional score:
`(tactic_presence * 100 // len(expected_tactics)) if expected_tactics else 0`,
where `tactic_presence` counts expected tactics whose flag is true. -/
def backfillTraditional (flags : String → Bool) (tactics : List String) : Nat :=
  if tactics.isEmpty then 0
  else tactics.countP (fun t => flags (flagKey t)) * 100 / tactics.length

/-- The `scores` dictionary written to history by module-02. -/
structure ScoresM2 where
  combined_score : Nat
  traditional_metrics : Nat
  llm_judge_quality : Nat
  confidence_score : Nat
deriving DecidableEq

/-- Score extraction and assembly of module-02's `evaluate_prompt` STEP 4:
regex extraction with 0 defaults, combined extraction, then the two backfill
rules guarded by Python truthiness (`if not traditional_score`,
`if not quality_score`). -/
def computeScoresM2 (t : List Char) (tactics : List String) (flags : String → Bool) :
    ScoresM2 :=
  let traditional0 := (extractTraditional t).getD 0
  let quality0 := (extractQuality t).getD 0
  let confidence := (extractConfidence t).getD 0
  let combined := extractCombined t
  let traditional := if traditional0 = 0 then backfillTraditional flags tactics else traditional0
  let quality := if quality0 = 0 then combined else quality0
  ⟨combined, traditional, quality, confidence⟩

/-- Result of module-03's `_calculate_semantic_similarity`. -/
structure SimilarityResult where
  overall_similarity : Nat
  detailed_analysis : String
  has_reference : Bool
deriving DecidableEq

/-- The `scores` dictionary written to history by module-03: module-02's
fields plus `semantic_similarity` (the comparator's overall similarity when a
comparison ran, `None` otherwise). -/
structure ScoresM3 where
  combined_score : Nat
  traditional_metrics : Nat
  llm_judge_quality : Nat
  confidence_score : Nat
  semantic_similarity : Option Nat
deriving DecidableEq

/-- Score extraction and assembly of module-03's `evaluate_prompt` STEP 7;
identical to module-02 except for the recorded `semantic_similarity` field. -/
def computeScoresM3 (t : List Char) (tactics : List String) (flags : String → Bool)
    (semantic_results : Option SimilarityResult) : ScoresM3 :=
  let traditional0 := (extractTraditional t).getD 0
  let quality0 := (extractQuality t).getD 0
  let confidence := (extractConfidence t).getD 0
  let combined := extractCombined t
  let traditional := if traditional0 = 0 then backfillTraditional flags tactics else traditional0
  let quality := if quality0 = 0 then combined else quality0
  ⟨combined, traditional, quality, confidence,
    semantic_results.map fun r => r.overall_similarity⟩

/-! ## Pattern Metrics Engine (`_calculate_traditional_metrics`) -/

/-- One chat message, `{"role": ..., "content": ...}`. -/
structure Message where
  role : String
  content : String
deriving DecidableEq

/-- Python `str` of one message dictionary (with the role/content insertion
order used everywhere in the source, simple single-quoted contents). -/
def pyReprMessage (m : Message) : String :=
  "\x7b" ++ "'role': '" ++ m.role ++ "', 'content': '" ++ m.content ++ "'" ++ "\x7d"

/-- Python `str(messages)`: the serialized prompt text searched by the
Pattern Metrics Engine. -/
def pyReprMessages (ms : List Message) : String :=
  "[" ++ String.intercalate ", " (ms.map pyReprMessage) ++ "]"

/-- Keywords of a table that occur in the (lower-cased) prompt text:
`[kw for kw in kws if kw in prompt_text.lower()]`. -/
def occurring (kws : List String) (lowerText : List Char) : List String :=
  kws.filter fun k => containsSub k.data lowerText

/-- Module-02 `common_tags`. -/
def commonTagsM2 : List String :=
  ["code", "requirements", "context", "example", "document", "thinking", "output",
   "test_file", "source_code", "analysis", "quotes", "evaluation"]

/-- Module-03 `common_tags` (module-02's list with seven extra tags). -/
def commonTagsM3 : List String :=
  commonTagsM2 ++ ["role", "guidelines", "tasks", "code_diff", "rubric", "criterion",
   "judge_profile"]

/-- `example_keywords` (both modules). -/
def exampleKeywords : List String :=
  ["example 1:", "example 2:", "example 3:", "example:"]

/-- Module-02 `cot_keywords`. -/
def cotKeywordsM2 : List String :=
  ["step-by-step", "think through", "reasoning", "analyze", "before", "first", "then"]

/-- Module-03 `cot_keywords`. -/
def cotKeywordsM3 : List String := cotKeywordsM2 ++ ["step 1", "step 2"]

/-- Module-02 `role_indicators`. -/
def roleIndicatorsM2 : List String :=
  ["you are a", "you are an", "act as", "role:", "persona:"]

/-- Module-03 `role_indicators`. -/
def roleIndicatorsM3 : List String := roleIndicatorsM2 ++ ["senior", "engineer", "specialist"]

/-- `tot_keywords` (identical in both modules). -/
def totKeywords : List String :=
  ["approach a", "approach b", "approach c", "alternative", "option 1", "option 2",
   "multiple approaches", "different solutions"]

/-- `tot_tags` (identical in both modules). -/
def totTags : List String :=
  ["<approach_a>", "<approach_b>", "<approach_c>", "<option_1>", "<option_2>",
   "<alternative_"]

/-- `parallel_keywords` (module-02 only; module-03 has no such table). -/
def parallelKeywords : List String :=
  ["parallel", "simultaneously", "concurrent", "asyncio.gather", "all at once",
   "in parallel"]

/-- Module-02 `judge_keywords`. -/
def judgeKeywordsM2 : List String :=
  ["rubric", "evaluate", "score", "rate", "criteria", "weighted", "judge",
   "assessment", "compare", "0-10", "1-10"]

/-- Module-03 `judge_keywords`. -/
def judgeKeywordsM3 : List String := judgeKeywordsM2 ++ ["verdict", "weight"]

/-- The metrics dictionary of module-02's `_calculate_traditional_metrics`. -/
structure MetricsM2 where
  has_system_message : Bool
  xml_tags_found : List String
  uses_xml_structure : Bool
  example_count : Nat
  uses_few_shot : Bool
  cot_keywords_found : List String
  uses_cot : Bool
  role_indicators : List String
  uses_role_prompting : Bool
  tot_keywords_found : List String
  uses_tree_of_thoughts : Bool
  uses_parallel_execution : Bool
  judge_keywords_found : List String
  uses_llm_as_judge : Bool
  uses_document_structure : Bool
  total_characters : Nat
  complexity : String
deriving DecidableEq

/-- The metrics dictionary of module-03's `_calculate_traditional_metrics`
(list-of-messages branch); it has no `uses_parallel_execution` key. -/
structure MetricsM3 where
  has_system_message : Bool
  xml_tags_found : List String
  uses_xml_structure : Bool
  example_count : Nat
  uses_few_shot : Bool
  cot_keywords_found : List String
  uses_cot : Bool
  role_indicators : List String
  uses_role_prompting : Bool
  tot_keywords_found : List String
  uses_tree_of_thoughts : Bool
  judge_keywords_found : List String
  uses_llm_as_judge : Bool
  uses_document_structure : Bool
  total_characters : Nat
  complexity : String
deriving DecidableEq

/-- Module-02 `_calculate_traditional_metrics` (lines 428-508). -/
def calcMetricsM2 (messages : List Message) : MetricsM2 :=
  let prompt_text := (pyReprMessages messages).data
  let lower := lcList prompt_text
  let xml_tags := commonTagsM2.filter fun tag => containsSub ("<" ++ tag ++ ">").data lower
  let assistant_messages := messages.filter fun m => m.role == "assistant"
  let example_count_in_content := (exampleKeywords.filter fun k => containsSub k.data lower).length
  let example_tag_count := countSub "<example>".data lower
  let example_count := max (max assistant_messages.length example_count_in_content) example_tag_count
  let cot_found := occurring cotKeywordsM2 lower
  let role_found := occurring roleIndicatorsM2 lower
  let tot_found := occurring totKeywords lower
  let tot_tags_found := occurring totTags lower
  let parallel_found := occurring parallelKeywords lower
  let judge_found := occurring judgeKeywordsM2 lower
  let has_percentages := containsSub ['%'] prompt_text
  { has_system_message := messages.any fun m => m.role == "system"
    xml_tags_found := xml_tags
    uses_xml_structure := decide (0 < xml_tags.length)
    example_count := example_count
    uses_few_shot := decide (2 ≤ example_count)
    cot_keywords_found := cot_found
    uses_cot := decide (0 < cot_found.length)
    role_indicators := role_found
    uses_role_prompting := decide (0 < role_found.length)
    tot_keywords_found := tot_found ++ tot_tags_found ++ parallel_found
    uses_tree_of_thoughts := decide (2 ≤ tot_found.length ∨ 2 ≤ tot_tags_found.length ∨
      (0 < parallel_found.length ∧ (1 ≤ tot_found.length ∨ 1 ≤ tot_tags_found.length)))
    uses_parallel_execution := decide (0 < parallel_found.length ∧
      (2 ≤ tot_found.length ∨ 2 ≤ tot_tags_found.length))
    judge_keywords_found := judge_found
    uses_llm_as_judge := decide (3 ≤ judge_found.length ∨
      (2 ≤ judge_found.length ∧ has_percentages = true))
    uses_document_structure :=
      (containsSub "<documents>".data lower || containsSub "<document>".data lower) &&
        containsSub "<source>".data lower
    total_characters := prompt_text.length
    complexity :=
      if 1000 < prompt_text.length then "high"
      else if 300 < prompt_text.length then "medium" else "low" }

/-- Module-03 `_calculate_traditional_metrics` (lines 720-809), for a list of
messages (the claims under verification only concern message lists). -/
def calcMetricsM3 (messages : List Message) : MetricsM3 :=
  let prompt_text := (pyReprMessages messages).data
  let lower := lcList prompt_text
  let xml_tags := commonTagsM3.filter fun tag => containsSub ("<" ++ tag ++ ">").data lower
  let assistant_messages := messages.filter fun m => m.role == "assistant"
  let example_count_in_content := (exampleKeywords.filter fun k => containsSub k.data lower).length
  let example_tag_count := countSub "<example>".data lower
  let example_count := max (max assistant_messages.length example_count_in_content) example_tag_count
  let cot_found := occurring cotKeywordsM3 lower
  let role_found := occurring roleIndicatorsM3 lower
  let tot_found := occurring totKeywords lower
  let tot_tags_found := occurring totTags lower
  let judge_found := occurring judgeKeywordsM3 lower
  let has_percentages := containsSub ['%'] prompt_text
  { has_system_message := messages.any fun m => m.role == "system"
    xml_tags_found := xml_tags
    uses_xml_structure := decide (0 < xml_tags.length)
    example_count := example_count
    uses_few_shot := decide (2 ≤ example_count)
    cot_keywords_found := cot_found
    uses_cot := decide (0 < cot_found.length)
    role_indicators := role_found
    uses_role_prompting := decide (0 < role_found.length)
    tot_keywords_found := tot_found ++ tot_tags_found
    uses_tree_of_thoughts := decide (2 ≤ tot_found.length ∨ 2 ≤ tot_tags_found.length)
    judge_keywords_found := judge_found
    uses_llm_as_judge := decide (3 ≤ judge_found.length ∨
      (2 ≤ judge_found.length ∧ has_percentages = true))
    uses_document_structure :=
      (containsSub "<documents>".data lower || containsSub "<document>".data lower) &&
        containsSub "<source>".data lower
    total_characters := prompt_text.length
    complexity :=
      if 1000 < prompt_text.length then "high"
      else if 300 < prompt_text.length then "medium" else "low" }

/-- Lookup `metrics.get(key, False)` on a module-02 metrics dictionary,
restricted to the boolean keys (the backfill key always starts `uses_`). -/
def metricsFlagM2 (m : MetricsM2) (key : String) : Bool :=
  if key = "uses_xml_structure" then m.uses_xml_structure
  else if key = "uses_few_shot" then m.uses_few_shot
  else if key = "uses_cot" then m.uses_cot
  else if key = "uses_role_prompting" then m.uses_role_prompting
  else if key = "uses_tree_of_thoughts" then m.uses_tree_of_thoughts
  else if key = "uses_parallel_execution" then m.uses_parallel_execution
  else if key = "uses_llm_as_judge" then m.uses_llm_as_judge
  else if key = "uses_document_structure" then m.uses_document_structure
  else false

/-- Lookup `metrics.get(key, False)` on a module-03 metrics dictionary; the
dictionary never holds a `uses_parallel_execution` key. -/
def metricsFlagM3 (m : MetricsM3) (key : String) : Bool :=
  if key = "uses_xml_structure" then m.uses_xml_structure
  else if key = "uses_few_shot" then m.uses_few_shot
  else if key = "uses_cot" then m.uses_cot
  else if key = "uses_role_prompting" then m.uses_role_prompting
  else if key = "uses_tree_of_thoughts" then m.uses_tree_of_thoughts
  else if key = "uses_llm_as_judge" then m.uses_llm_as_judge
  else if key = "uses_document_structure" then m.uses_document_structure
  else false

/-! ### Standalone counting functions used to state the metric claims -/

/-- Count of assistant-role messages (`len(assistant_messages)`). -/
def assistantCount (ms : List Message) : Nat :=
  (ms.filter fun m => m.role == "assistant").length

/-- Count of textual example markers present in the serialized prompt. -/
def exampleMarkerCount (ms : List Message) : Nat :=
  (exampleKeywords.filter fun k =>
    containsSub k.data (lcList (pyReprMessages ms).data)).length

/-- Count of `<example>` tags in the serialized prompt. -/
def exampleTagCount (ms : List Message) : Nat :=
  countSub "<example>".data (lcList (pyReprMessages ms).data)

/-- Number of approach keywords (`tot_keywords`) present in the prompt. -/
def totKeywordCount (ms : List Message) : Nat :=
  (occurring totKeywords (lcList (pyReprMessages ms).data)).length

/-- Number of approach tags (`tot_tags`) present in the prompt. -/
def totTagCount (ms : List Message) : Nat :=
  (occurring totTags (lcList (pyReprMessages ms).data)).length

/-- Number of parallel keywords present in the prompt. -/
def parallelKeywordCount (ms : List Message) : Nat :=
  (occurring parallelKeywords (lcList (pyReprMessages ms).data)).length

/-! ## Similarity Comparator (module-03 `_calculate_semantic_similarity`) -/

/-- Pattern `\*\*Overall Semantic Similarity\*\*:\s*(\d+)%` (case sensitive:
this is the one `re.search` in the file compiled without flags). -/
def reSimilarity : RE :=
  seqList [litCS "**Overall Semantic Similarity**:", wsStar, capDigits, litCS "%"]

/-- Module-03 `get_claude_completion`: a provider failure is caught inside the
helper and converted into an error string; the helper itself never raises.
The other two provider helpers have the same catch-all shape. -/
def getClaudeCompletionM3 (provider : Except String String) : String :=
  match provider with
  | .ok text => text
  | .error e =>
    "❌ Error: " ++ e ++ "\n💡 Make sure GitHub Copilot proxy is running on port 7711"

/-- Body of `_calculate_semantic_similarity` around the completion call: the
argument is the outcome of `get_chat_completion(messages, temperature=0.0)`
(`.error` when that call raises, which the `except` branch turns into the
zero result; `.ok` when it returns a string, which is then searched with the
single similarity regex, defaulting to 50). -/
def calcSemanticSimilarity (completion : Except String String) : SimilarityResult :=
  match completion with
  | .error e => ⟨0, "Error calculating similarity: " ++ e, false⟩
  | .ok response =>
    match reFind1 reSimilarity response.data with
    | some n => ⟨n, response, true⟩
    | none => ⟨50, response, true⟩

/-- The comparator as actually wired to the provider in module-03: the
completion helper catches provider failures and returns an error string, so
the comparator's own `except` branch is not reached on a provider failure. -/
def calcSemanticSimilarityVia (provider : Except String String) : SimilarityResult :=
  calcSemanticSimilarity (.ok (getClaudeCompletionM3 provider))

/-! ## History Store (`_save_evaluation_history` / `view_progress`) -/

/-- Lexicographic order on character lists: Python `<=` on strings, the
comparison used by `all_evaluations.sort(key=lambda x: x['timestamp'])`. -/
def lexLe : List Char → List Char → Bool
  | [], _ => true
  | _ :: _, [] => false
  | a :: as, b :: bs => if a == b then lexLe as bs else decide (a < b)

/-- One parsed line of a `*_history.jsonl` file, with the fields
`view_progress` reads. -/
structure ProgressRecord where
  timestamp : String
  activity : String
  combined_score : Nat
deriving DecidableEq

/-- Timestamp comparison used for sorting history records. -/
def recLe (a b : ProgressRecord) : Bool := lexLe a.timestamp.data b.timestamp.data

/-- Python normalization of an activity name into its history-file key:
`activity_name.replace(' ', '_').lower()`. -/
def normalizeActivity (a : String) : String :=
  String.mk (a.data.map fun c => if c == ' ' then '_' else lowerChar c)

/-- The on-disk history directory: one entry per `*_history.jsonl` file,
keyed by normalized activity name, holding that file's records in file
order. -/
abbrev HistoryStore : Type := List (String × List ProgressRecord)

/-- Records gathered by `view_progress`: the one file matching the glob
`{key}_history.jsonl` when an activity is given, every file otherwise, each
file read line by line in order. -/
def collectEvaluations (store : HistoryStore) (activity : Option String) :
    List ProgressRecord :=
  let files : HistoryStore :=
    match activity with
    | some a => store.filter fun f => f.1 == normalizeActivity a
    | none => store
  (files.map fun f => f.2).flatten

/-- Observable outcome of `view_progress`: either the no-history notice, or
the entries in the order they are printed. -/
structure ProgressView where
  no_history : Bool
  entries : List ProgressRecord
deriving DecidableEq

/-- Insert a record after every already-placed record whose timestamp is not
greater: the insertion step of a stable ascending sort. -/
def insertTS (x : ProgressRecord) : List ProgressRecord → List ProgressRecord
  | [] => [x]
  | y :: ys => if recLe y x then y :: insertTS x ys else x :: y :: ys

/-- Stable ascending sort by timestamp.  Python `list.sort` is stable, and a
stable sort's output is uniquely determined by the key order, so this fold
of stable insertions computes exactly the list `view_progress` prints. -/
def sortByTimestamp (l : List ProgressRecord) : List ProgressRecord :=
  l.foldl (fun acc x => insertTS x acc) []

/-- Module `view_progress` (both files): load matching history files, print
the notice when nothing was found, otherwise present the records sorted
ascending by timestamp. -/
def viewProgress (store : HistoryStore) (activity : Option String) : ProgressView :=
  let evals := collectEvaluations store activity
  if evals.isEmpty then ⟨true, []⟩
  else ⟨false, sortByTimestamp evals⟩

/-! ## Persistence boundary of `evaluate_prompt` (module-02) -/

/-- Body of `_save_evaluation_history`: the whole write is inside
`try/except`, returning `True` on success and warning and returning `False`
on any failure.  The argument stands for the outcome of the file-system
write. -/
def saveEvaluationHistoryRun (write : Except String Unit) : Bool × Option String :=
  match write with
  | .ok _ => (true, none)
  | .error e => (false, some ("Could not save evaluation history: " ++ e))

/-- The dictionary `evaluate_prompt` returns when `return_results=True`
(module-02, STEP 5): the metrics, the raw judgment and its four extracted
sections.  The pattern metrics are a pure function of the inputs and are
carried verbatim. -/
structure EvalReturnM2 where
  activity_name : String
  llm_judgment : String
  evaluation_section : List Char
  skills_section : List Char
  combined_section : List Char
  feedback_section : List Char
deriving DecidableEq

/-- Observable outcome of one `evaluate_prompt` call (module-02): what is
returned, whether the history write succeeded, the warning it printed, and
whether an exception escaped (`raised`). -/
structure EvalOutcomeM2 where
  returned : Option EvalReturnM2
  history_saved : Bool
  save_warning : Option String
  raised : Bool
deriving DecidableEq

/-- Module-02 `evaluate_prompt` after the completion call: score extraction
and the history write happen inside `try/except Exception: pass`, and
`_save_evaluation_history` additionally catches its own failures, so the
write outcome influences only `history_saved` and the warning, never the
in-memory result. -/
def evaluatePromptM2 (llm_judgment : String) (activity_name : String)
    (expected_tactics : List String) (flags : String → Bool)
    (track_progress return_results : Bool) (write : Except String Unit) :
    EvalOutcomeM2 :=
  let _scores := computeScoresM2 llm_judgment.data expected_tactics flags
  let _tactic_scores := tacticScoresM2 expected_tactics llm_judgment.data
  let saveRun := if track_progress then some (saveEvaluationHistoryRun write) else none
  { returned :=
      if return_results then
        some { activity_name := activity_name
               llm_judgment := llm_judgment
               evaluation_section := extractSection llm_judgment.data "evaluation"
               skills_section := extractSection llm_judgment.data "skills_demonstrated"
               combined_section := extractSection llm_judgment.data "combined_score"
               feedback_section := extractSection llm_judgment.data "overall_feedback" }
      else none
    history_saved := (saveRun.map Prod.fst).getD false
    save_warning := saveRun.bind Prod.snd
    raised := false }

/-! ## Provider configuration (`set_provider` / `get_provider`) -/

/-- `AVAILABLE_PROVIDERS` (identical in both modules). -/
def AVAILABLE_PROVIDERS : List String := ["openai", "claude", "circuit"]

/-- `set_provider`: normalize, validate against `AVAILABLE_PROVIDERS`, raise
`ValueError` on unknown names, else assign the module-level `PROVIDER` and
return it.  The result carries `(return value, new PROVIDER state)`. -/
def setProvider (provider_name : String) (PROVIDER : String) :
    Except String (String × String) :=
  let provider_normalized := pyLower provider_name
  if AVAILABLE_PROVIDERS.contains provider_normalized then
    .ok (provider_normalized, provider_normalized)
  else
    .error ("Unknown provider " ++ provider_name ++ ". Choose from the available providers.")

/-- `get_provider`: return the current `PROVIDER` state. -/
def getProvider (PROVIDER : String) : String := PROVIDER

/-! ## Order lemmas for the timestamp sort -/

theorem lexLe_total (a b : List Char) : lexLe a b = true ∨ lexLe b a = true := by
  induction a generalizing b with
  | nil => left; rfl
  | cons x xs ih =>
    cases b with
    | nil => right; rfl
    | cons y ys =>
      simp only [lexLe]
      by_cases h : x = y
      · subst h
        rw [if_pos (beq_self_eq_true x), if_pos (beq_self_eq_true x)]
        exact ih ys
      · have hb1 : ¬ ((x == y) = true) := by simp [h]
        have hb2 : ¬ ((y == x) = true) := by simp [Ne.symm h]
        rw [if_neg hb1, if_neg hb2]
        rcases lt_trichotomy x y with hlt | heq | hgt
        · exact Or.inl (decide_eq_true hlt)
        · exact absurd heq h
        · exact Or.inr (decide_eq_true hgt)

theorem lexLe_trans (a b c : List Char) (h1 : lexLe a b = true) (h2 : lexLe b c = true) :
    lexLe a c = true := by
  induction a generalizing b c with
  | nil => rfl
  | cons x xs ih =>
    cases b with
    | nil => exact absurd h1 (by simp [lexLe])
    | cons y ys =>
      cases c with
      | nil => exact absurd h2 (by simp [lexLe])
      | cons z zs =>
        simp only [lexLe] at h1 h2 ⊢
        by_cases hxy : x = y
        · subst hxy
          rw [if_pos (beq_self_eq_true x)] at h1
          by_cases hxz : x = z
          · subst hxz
            rw [if_pos (beq_self_eq_true x)] at h2 ⊢
            exact ih ys zs h1 h2
          · have hb : ¬ ((x == z) = true) := by simp [hxz]
            rw [if_neg hb] at h2 ⊢
            exact h2
        · have hb1 : ¬ ((x == y) = true) := by simp [hxy]
          rw [if_neg hb1] at h1
          have hxylt : x < y := of_decide_eq_true h1
          by_cases hyz : y = z
          · subst hyz
            rw [if_neg hb1]
            exact h1
          · have hb2 : ¬ ((y == z) = true) := by simp [hyz]
            rw [if_neg hb2] at h2
            have hyzlt : y < z := of_decide_eq_true h2
            have hxzlt : x < z := lt_trans hxylt hyzlt
            have hb3 : ¬ ((x == z) = true) := by simp [ne_of_lt hxzlt]
            rw [if_neg hb3]
            exact decide_eq_true hxzlt

theorem recLe_total (a b : ProgressRecord) : recLe a b = true ∨ recLe b a = true :=
  lexLe_total _ _

theorem recLe_trans (a b c : ProgressRecord) (h1 : recLe a b = true)
    (h2 : recLe b c = true) : recLe a c = true :=
  lexLe_trans _ _ _ h1 h2

theorem insertTS_perm (x : ProgressRecord) (l : List ProgressRecord) :
    (insertTS x l).Perm (x :: l) := by
  induction l with
  | nil => exact List.Perm.refl _
  | cons y ys ih =>
    simp only [insertTS]
    by_cases h : recLe y x = true
    · rw [if_pos h]
      exact (ih.cons y).trans (List.Perm.swap x y ys)
    · rw [if_neg h]

theorem mem_insertTS {z x : ProgressRecord} {l : List ProgressRecord}
    (h : z ∈ insertTS x l) : z = x ∨ z ∈ l := by
  simpa using (insertTS_perm x l).mem_iff.mp h

theorem pairwise_insertTS (x : ProgressRecord) (l : List ProgressRecord)
    (h : l.Pairwise (fun a b => recLe a b = true)) :
    (insertTS x l).Pairwise (fun a b => recLe a b = true) := by
  induction l with
  | nil => simp [insertTS]
  | cons y ys ih =>
    rcases List.pairwise_cons.mp h with ⟨hy, hys⟩
    simp only [insertTS]
    by_cases hr : recLe y x = true
    · rw [if_pos hr]
      refine List.pairwise_cons.mpr ⟨?_, ih hys⟩
      intro z hz
      rcases mem_insertTS hz with rfl | hz2
      · exact hr
      · exact hy z hz2
    · rw [if_neg hr]
      have hxy : recLe x y = true := (recLe_total x y).resolve_right (by simpa using hr)
      refine List.pairwise_cons.mpr ⟨?_, h⟩
      intro z hz
      rcases List.mem_cons.mp hz with rfl | hz2
      · exact hxy
      · exact recLe_trans x y z hxy (hy z hz2)

theorem sortTS_aux_perm (l acc : List ProgressRecord) :
    (l.foldl (fun acc x => insertTS x acc) acc).Perm (acc ++ l) := by
  induction l generalizing acc with
  | nil => simp
  | cons x xs ih =>
    simp only [List.foldl_cons]
    refine (ih (insertTS x acc)).trans ?_
    have h1 : (insertTS x acc ++ xs).Perm ((x :: acc) ++ xs) :=
      (insertTS_perm x acc).append_right xs
    have h2 : (x :: (acc ++ xs)).Perm (acc ++ x :: xs) := List.perm_middle.symm
    exact h1.trans h2

theorem sortByTimestamp_perm (l : List ProgressRecord) :
    (sortByTimestamp l).Perm l := by
  simpa using sortTS_aux_perm l []

theorem sortTS_aux_pairwise (l acc : List ProgressRecord)
    (h : acc.Pairwise (fun a b => recLe a b = true)) :
    (l.foldl (fun acc x => insertTS x acc) acc).Pairwise (fun a b => recLe a b = true) := by
  induction l generalizing acc with
  | nil => simpa using h
  | cons x xs ih =>
    simp only [List.foldl_cons]
    exact ih (insertTS x acc) (pairwise_insertTS x acc h)

theorem sortByTimestamp_pairwise (l : List ProgressRecord) :
    (sortByTimestamp l).Pairwise (fun a b => recLe a b = true) :=
  sortTS_aux_pairwise l [] List.Pairwise.nil

/-- Claim C8: a progress query with no persisted records for the requested
activity completes normally with an empty result and the no-history notice;
when records exist they are presented sorted ascending by timestamp (and are
exactly the stored records), whatever their on-disk order. -/
theorem claim_C8 : ∀ (store : HistoryStore) (activity : Option String),
    (collectEvaluations store activity = [] →
      viewProgress store activity = ⟨true, []⟩) ∧
    (collectEvaluations store activity ≠ [] →
      (viewProgress store activity).no_history = false ∧
      (viewProgress store activity).entries.Pairwise (fun a b => recLe a b = true) ∧
      (viewProgress store activity).entries.Perm (collectEvaluations store activity)) := by
  intro store activity
  constructor
  · intro h
    simp [viewProgress, h]
  · intro h
    have hne : (collectEvaluations store activity).isEmpty = false :=
      List.isEmpty_eq_false.mpr h
    refine ⟨?_, ?_, ?_⟩ <;>
      simp [viewProgress, hne, sortByTimestamp_pairwise, sortByTimestamp_perm]

/-- Witness for C8 at a two-record store in reverse timestamp order, and an
activity with no records. -/
theorem claim_C8_witness :
    (collectEvaluations
        [("activity_2.1", [⟨"2024-02-01T10:00:00", "Activity 2.1", 60⟩,
          ⟨"2024-01-01T09:00:00", "Activity 2.1", 50⟩])] (some "Activity 2.1") ≠ [] ∧
      (viewProgress
        [("activity_2.1", [⟨"2024-02-01T10:00:00", "Activity 2.1", 60⟩,
          ⟨"2024-01-01T09:00:00", "Activity 2.1", 50⟩])] (some "Activity 2.1")).no_history = false ∧
      (viewProgress
        [("activity_2.1", [⟨"2024-02-01T10:00:00", "Activity 2.1", 60⟩,
          ⟨"2024-01-01T09:00:00", "Activity 2.1", 50⟩])] (some "Activity 2.1")).entries.Pairwise
        (fun a b => recLe a b = true)) ∧
    (collectEvaluations
        [("activity_2.1", [⟨"2024-02-01T10:00:00", "Activity 2.1", 60⟩,
          ⟨"2024-01-01T09:00:00", "Activity 2.1", 50⟩])] (some "Activity 9.9") = [] ∧
      viewProgress
        [("activity_2.1", [⟨"2024-02-01T10:00:00", "Activity 2.1", 60⟩,
          ⟨"2024-01-01T09:00:00", "Activity 2.1", 50⟩])] (some "Activity 9.9") = ⟨true, []⟩) := by
  constructor
  · exact ⟨by decide, ((claim_C8 _ _).2 (by decide)).1, ((claim_C8 _ _).2 (by decide)).2.1⟩
  · exact ⟨by decide, (claim_C8 _ _).1 (by decide)⟩

/-- Claim C9: when writing the history record fails with any exception the
failure is caught and warned about, no exception propagates out of
`evaluate_prompt`, and the call still completes with the same in-memory
evaluation result (the returned dictionary, when requested) as when
persistence succeeds. -/
theorem claim_C9 : ∀ (llm_judgment activity_name : String) (tactics : List String)
    (flags : String → Bool) (return_results : Bool) (e : String),
    (evaluatePromptM2 llm_judgment activity_name tactics flags true return_results
        (.error e)).raised = false ∧
    (evaluatePromptM2 llm_judgment activity_name tactics flags true return_results
        (.error e)).history_saved = false ∧
    (evaluatePromptM2 llm_judgment activity_name tactics flags true return_results
        (.error e)).save_warning =
      some ("Could not save evaluation history: " ++ e) ∧
    (∀ w1 w2 : Except String Unit,
      (evaluatePromptM2 llm_judgment activity_name tactics flags true return_results
          w1).returned =
        (evaluatePromptM2 llm_judgment activity_name tactics flags true return_results
          w2).returned) ∧
    (evaluatePromptM2 llm_judgment activity_name tactics flags true return_results
        (.error e)).returned =
      (evaluatePromptM2 llm_judgment activity_name tactics flags true return_results
        (.ok ())).returned := by
  intro j a tacs flags ret e
  exact ⟨rfl, rfl, rfl, fun w1 w2 => rfl, rfl⟩

/-- Claim C10: `set_provider` raises `ValueError` exactly when the
lowercased name is not an available provider; otherwise it stores and
returns the lowercased name, so after any successful call the provider
reported by `get_provider` is a member of `AVAILABLE_PROVIDERS`. -/
theorem claim_C10 : ∀ (provider_name PROVIDER : String),
    (AVAILABLE_PROVIDERS.contains (pyLower provider_name) = true →
      setProvider provider_name PROVIDER = .ok (pyLower provider_name, pyLower provider_name)) ∧
    (AVAILABLE_PROVIDERS.contains (pyLower provider_name) = false →
      setProvider provider_name PROVIDER =
        .error ("Unknown provider " ++ provider_name ++
          ". Choose from the available providers.")) ∧
    (∀ r st, setProvider provider_name PROVIDER = .ok (r, st) →
      r = pyLower provider_name ∧ AVAILABLE_PROVIDERS.contains (getProvider st) = true) := by
  intro name PROVIDER
  refine ⟨?_, ?_, ?_⟩
  · intro h
    simp only [setProvider]
    rw [if_pos h]
  · intro h
    simp only [setProvider]
    rw [if_neg (by intro hh; rw [h] at hh; exact Bool.false_ne_true hh)]
  · intro r st h
    simp only [setProvider] at h
    by_cases hc : AVAILABLE_PROVIDERS.contains (pyLower name) = true
    · rw [if_pos hc] at h
      injection h with h2
      injection h2 with ha hb
      subst ha
      subst hb
      exact ⟨rfl, hc⟩
    · rw [if_neg hc] at h
      exact absurd h (by simp)

/-- Witness for C10. -/
theorem claim_C10_witness :
    (AVAILABLE_PROVIDERS.contains (pyLower "Claude") = true ∧
      setProvider "Claude" "openai" = .ok (pyLower "Claude", pyLower "Claude")) ∧
    (AVAILABLE_PROVIDERS.contains (pyLower "gpt") = false ∧
      setProvider "gpt" "claude" =
        .error ("Unknown provider " ++ "gpt" ++ ". Choose from the available providers.")) ∧
    ("claude" = pyLower "Claude" ∧
      AVAILABLE_PROVIDERS.contains (getProvider "claude") = true) :=
  ⟨⟨by decide, (claim_C10 "Claude" "openai").1 (by decide)⟩,
   ⟨by decide, (claim_C10 "gpt" "claude").2.1 (by decide)⟩,
   (claim_C10 "Claude" "openai").2.2 "claude" "claude" rfl⟩

/-- Claim C6: `example_count` is the maximum of the three independent counts
(assistant messages, textual markers, `<example>` tags) and `uses_few_shot`
holds exactly when it is at least 2, in both modules; a prompt with two
assistant messages and no textual markers still sets `uses_few_shot`. -/
theorem claim_C6 : (∀ ms : List Message,
    (calcMetricsM2 ms).example_count =
      max (max (assistantCount ms) (exampleMarkerCount ms)) (exampleTagCount ms) ∧
    ((calcMetricsM2 ms).uses_few_shot = true ↔ 2 ≤ (calcMetricsM2 ms).example_count) ∧
    (calcMetricsM3 ms).example_count =
      max (max (assistantCount ms) (exampleMarkerCount ms)) (exampleTagCount ms) ∧
    ((calcMetricsM3 ms).uses_few_shot = true ↔ 2 ≤ (calcMetricsM3 ms).example_count)) ∧
  (calcMetricsM2 [⟨"assistant", "alpha"⟩, ⟨"assistant", "beta"⟩]).example_count = 2 ∧
  exampleMarkerCount [⟨"assistant", "alpha"⟩, ⟨"assistant", "beta"⟩] = 0 ∧
  exampleTagCount [⟨"assistant", "alpha"⟩, ⟨"assistant", "beta"⟩] = 0 ∧
  (calcMetricsM2 [⟨"assistant", "alpha"⟩, ⟨"assistant", "beta"⟩]).uses_few_shot = true ∧
  (calcMetricsM3 [⟨"assistant", "alpha"⟩, ⟨"assistant", "beta"⟩]).uses_few_shot = true := by
  refine ⟨?_, by decide, by decide, by decide, by decide, by decide⟩
  intro ms
  refine ⟨rfl, ?_, rfl, ?_⟩ <;> exact decide_eq_true_iff

/-- Counterexample to claim C7: a prompt holding one approach keyword and a
parallel keyword satisfies the claimed tree-of-thoughts condition, but
module-03's `uses_tree_of_thoughts` is false (its rule has no parallel
clause); module-02's flag is true. -/
theorem claim_C7_counterexample :
    (0 < parallelKeywordCount [⟨"user", "use approach a in parallel"⟩] ∧
      1 ≤ totKeywordCount [⟨"user", "use approach a in parallel"⟩]) ∧
    (calcMetricsM3 [⟨"user", "use approach a in parallel"⟩]).uses_tree_of_thoughts = false ∧
    (calcMetricsM2 [⟨"user", "use approach a in parallel"⟩]).uses_tree_of_thoughts = true := by
  exact ⟨by decide, by decide, by decide⟩

/-- Claim C7 as amended: module-02's two flags follow exactly the claimed
rules; module-03's `uses_tree_of_thoughts` uses only the two `>= 2` clauses,
and module-03 computes no `uses_parallel_execution` flag at all (its metrics
lookup yields the `False` default for that key). -/
theorem claim_C7_amended : ∀ ms : List Message,
    ((calcMetricsM2 ms).uses_tree_of_thoughts = true ↔
      2 ≤ totKeywordCount ms ∨ 2 ≤ totTagCount ms ∨
        (0 < parallelKeywordCount ms ∧ (1 ≤ totKeywordCount ms ∨ 1 ≤ totTagCount ms))) ∧
    ((calcMetricsM2 ms).uses_parallel_execution = true ↔
      0 < parallelKeywordCount ms ∧ (2 ≤ totKeywordCount ms ∨ 2 ≤ totTagCount ms)) ∧
    ((calcMetricsM3 ms).uses_tree_of_thoughts = true ↔
      2 ≤ totKeywordCount ms ∨ 2 ≤ totTagCount ms) ∧
    (∀ m : MetricsM3, metricsFlagM3 m "uses_parallel_execution" = false) := by
  intro ms
  refine ⟨?_, ?_, ?_, fun m => rfl⟩ <;> exact decide_eq_true_iff

/-- Claim C2: combined-score extraction tries the exact Overall-Score line,
then the weighted/overall `= N/100` pattern, then any trailing `= N/100` at
end of a line, first match winning, with default 70; being a total function
of the text it never raises, also on empty or garbled input. -/
theorem claim_C2 :
    (∀ (t : List Char) (n : Nat), reFind1 reOverall1 t = some n → extractCombined t = n) ∧
    (∀ (t : List Char) (n : Nat), reFind1 reOverall1 t = none →
      reFind1 reOverall2 t = some n → extractCombined t = n) ∧
    (∀ (t : List Char) (n : Nat), reFind1 reOverall1 t = none →
      reFind1 reOverall2 t = none → reFind1 reOverall3 (pyStrip t) = some n →
      extractCombined t = n) ∧
    (∀ t : List Char, reFind1 reOverall1 t = none → reFind1 reOverall2 t = none →
      reFind1 reOverall3 (pyStrip t) = none → extractCombined t = 70) ∧
    extractCombined [] = 70 ∧
    extractCombined "@#garbled 12 text".data = 70 := by
  refine ⟨?_, ?_, ?_, ?_, by decide, by decide⟩
  · intro t n h
    simp [extractCombined, h]
  · intro t n h1 h2
    simp [extractCombined, h1, h2]
  · intro t n h1 h2 h3
    simp [extractCombined, h1, h2, h3]
  · intro t h1 h2 h3
    simp [extractCombined, h1, h2, h3]

/-- Witness for C2: one concrete text per fallback stage, each with its
hypotheses checked by evaluation. -/
theorem claim_C2_witness :
    (reFind1 reOverall1 "Overall Score: 82/100".data = some 82 ∧
      extractCombined "Overall Score: 82/100".data = 82) ∧
    (reFind1 reOverall1 "Weighted Combined Score = 52/100".data = none ∧
      reFind1 reOverall2 "Weighted Combined Score = 52/100".data = some 52 ∧
      extractCombined "Weighted Combined Score = 52/100".data = 52) ∧
    (reFind1 reOverall1 "Final = 77/100".data = none ∧
      reFind1 reOverall2 "Final = 77/100".data = none ∧
      reFind1 reOverall3 (pyStrip "Final = 77/100".data) = some 77 ∧
      extractCombined "Final = 77/100".data = 77) ∧
    (reFind1 reOverall1 "@#garbled 12 text".data = none ∧
      reFind1 reOverall2 "@#garbled 12 text".data = none ∧
      reFind1 reOverall3 (pyStrip "@#garbled 12 text".data) = none ∧
      extractCombined "@#garbled 12 text".data = 70) :=
  ⟨⟨by decide, claim_C2.1 _ 82 (by decide)⟩,
   ⟨by decide, by decide, claim_C2.2.1 _ 52 (by decide) (by decide)⟩,
   ⟨by decide, by decide, by decide, claim_C2.2.2.1 _ 77 (by decide) (by decide) (by decide)⟩,
   ⟨by decide, by decide, by decide, claim_C2.2.2.2.1 _ (by decide) (by decide) (by decide)⟩⟩

/-- Counterexample to claim C1: a judgment whose Traditional and Quality
lines both read 100 but whose Overall Score line reads 10 is recorded with
combined score 10, not round(100*0.40 + 100*0.60) = 100: the combined score
is extracted, not recomputed from the sub-scores. -/
theorem claim_C1_counterexample :
    extractTraditional "Traditional Metrics: 100/100\nQuality Assessment: 100/100\nConfidence Score: 50/100\nOverall Score: 10/100".data = some 100 ∧
    extractQuality "Traditional Metrics: 100/100\nQuality Assessment: 100/100\nConfidence Score: 50/100\nOverall Score: 10/100".data = some 100 ∧
    (computeScoresM2 "Traditional Metrics: 100/100\nQuality Assessment: 100/100\nConfidence Score: 50/100\nOverall Score: 10/100".data
        ["Role Prompting"] (fun _ => false)).traditional_metrics = 100 ∧
    (computeScoresM2 "Traditional Metrics: 100/100\nQuality Assessment: 100/100\nConfidence Score: 50/100\nOverall Score: 10/100".data
        ["Role Prompting"] (fun _ => false)).llm_judge_quality = 100 ∧
    (computeScoresM2 "Traditional Metrics: 100/100\nQuality Assessment: 100/100\nConfidence Score: 50/100\nOverall Score: 10/100".data
        ["Role Prompting"] (fun _ => false)).combined_score = 10 ∧
    ¬ ((10 : ℤ) = round ((100 : ℚ) * (40 / 100) + (100 : ℚ) * (60 / 100))) := by
  refine ⟨by decide, by decide, by decide, by decide, by decide, by norm_num⟩

/-- Claim C1 as amended: the recorded combined score is exactly the value of
the Overall-Score extraction chain applied to the judgment text; it does not
use the extracted traditional, quality or confidence scores, and the
semantic-similarity result (module-03) changes no recorded score. -/
theorem claim_C1_amended :
    (∀ (t : List Char) (tactics : List String) (flags : String → Bool),
      (computeScoresM2 t tactics flags).combined_score = extractCombined t) ∧
    (∀ (t : List Char) (tactics : List String) (flags : String → Bool)
        (sem : Option SimilarityResult),
      (computeScoresM3 t tactics flags sem).combined_score = extractCombined t) ∧
    (∀ (t : List Char) (tactics : List String) (flags : String → Bool)
        (sem1 sem2 : Option SimilarityResult),
      (computeScoresM3 t tactics flags sem1).combined_score =
        (computeScoresM3 t tactics flags sem2).combined_score ∧
      (computeScoresM3 t tactics flags sem1).traditional_metrics =
        (computeScoresM3 t tactics flags sem2).traditional_metrics ∧
      (computeScoresM3 t tactics flags sem1).llm_judge_quality =
        (computeScoresM3 t tactics flags sem2).llm_judge_quality ∧
      (computeScoresM3 t tactics flags sem1).confidence_score =
        (computeScoresM3 t tactics flags sem2).confidence_score) :=
  ⟨fun _ _ _ => rfl, fun _ _ _ _ => rfl, fun _ _ _ _ _ => ⟨rfl, rfl, rfl, rfl⟩⟩

/-- Counterexample to claim C3: with three expected tactics of which exactly
one has a true flag, the stored backfilled traditional score is the floor
33, while the fraction times 100 is 100/3; the two differ. -/
theorem claim_C3_counterexample :
    extractTraditional "no explicit scores here".data = none ∧
    (["Role Prompting", "Chain-of-Thought", "Structured Inputs"].countP fun tac =>
      metricsFlagM2 (calcMetricsM2 [⟨"system", "You are a QA engineer"⟩]) (flagKey tac)) = 1 ∧
    (computeScoresM2 "no explicit scores here".data
        ["Role Prompting", "Chain-of-Thought", "Structured Inputs"]
        (metricsFlagM2 (calcMetricsM2 [⟨"system", "You are a QA engineer"⟩]))).traditional_metrics
      = 33 ∧
    ¬ ((33 : ℚ) = (1 / 3 : ℚ) * 100) := by
  refine ⟨by decide, by decide, by decide, by norm_num⟩

/-- Claim C3 as amended: when no traditional score is extracted and the
expected-tactic list is non-empty, the stored traditional score is the
integer floor of (flagged count * 100 / list length); when no quality score
is extracted the stored quality equals the combined score. -/
theorem claim_C3_amended :
    (∀ (t : List Char) (m : MetricsM2) (tactics : List String),
      extractTraditional t = none → tactics ≠ [] →
      (computeScoresM2 t tactics (metricsFlagM2 m)).traditional_metrics =
        (tactics.countP fun tac => metricsFlagM2 m (flagKey tac)) * 100 / tactics.length) ∧
    (∀ (t : List Char) (m : MetricsM2) (tactics : List String),
      extractQuality t = none →
      (computeScoresM2 t tactics (metricsFlagM2 m)).llm_judge_quality =
        (computeScoresM2 t tactics (metricsFlagM2 m)).combined_score) := by
  constructor
  · intro t m tactics h hne
    simp [computeScoresM2, h, backfillTraditional, List.isEmpty_eq_false.mpr hne]
  · intro t m tactics h
    simp [computeScoresM2, h]

/-- Witness for C3: a judgment with neither score line, one expected tactic
whose flag is true (backfill 100), and quality backfilled to the default
combined score 70. -/
theorem claim_C3_witness :
    (extractTraditional "hello".data = none ∧ (["Role Prompting"] : List String) ≠ [] ∧
      (computeScoresM2 "hello".data ["Role Prompting"]
          (metricsFlagM2 (calcMetricsM2 [⟨"system", "You are a QA engineer"⟩]))).traditional_metrics =
        ((["Role Prompting"] : List String).countP fun tac =>
          metricsFlagM2 (calcMetricsM2 [⟨"system", "You are a QA engineer"⟩]) (flagKey tac)) * 100 /
          (["Role Prompting"] : List String).length) ∧
    (extractQuality "hello".data = none ∧
      (computeScoresM2 "hello".data ["Role Prompting"]
          (metricsFlagM2 (calcMetricsM2 [⟨"system", "You are a QA engineer"⟩]))).llm_judge_quality =
        (computeScoresM2 "hello".data ["Role Prompting"]
          (metricsFlagM2 (calcMetricsM2 [⟨"system", "You are a QA engineer"⟩]))).combined_score) :=
  ⟨⟨by decide, by decide, claim_C3_amended.1 _ _ _ (by decide) (by decide)⟩,
   ⟨by decide, claim_C3_amended.2 _ _ _ (by decide)⟩⟩

/-! ## Stage lemmas for per-tactic extraction -/

theorem mem_tacticScoresStrict {tactics : List String} {t : List Char}
    {e : String × Nat × Nat} (h : e ∈ tacticScoresStrict tactics t) : e.1 ∈ tactics := by
  rcases List.mem_filterMap.mp h with ⟨a, ha, hfa⟩
  rcases Option.map_eq_some'.mp hfa with ⟨qc, _, he⟩
  exact he ▸ ha

theorem mem_tacticScoresLoose {tactics : List String} {t : List Char}
    {e : String × Nat × Nat} (h : e ∈ tacticScoresLoose tactics t) :
    e.1 ∈ tactics ∧ e.2.2 = 85 := by
  rcases List.mem_filterMap.mp h with ⟨a, ha, hfa⟩
  rcases Option.map_eq_some'.mp hfa with ⟨q, _, he⟩
  subst he
  exact ⟨ha, rfl⟩

theorem mem_tacticScoresSkills {tactics : List String} {t : List Char}
    {e : String × Nat × Nat} (h : e ∈ tacticScoresSkills tactics t) :
    e.1 ∈ tactics ∧ e.2 = (9, 90) := by
  revert h
  unfold tacticScoresSkills
  cases hs : extractSectionCI "skills_demonstrated" t with
  | none => intro h; exact absurd h (List.not_mem_nil e)
  | some skills =>
    intro h
    rcases List.mem_filterMap.mp h with ⟨a, ha, hfa⟩
    by_cases hc : containsSubCI a.data skills = true
    · rw [if_pos hc] at hfa
      cases hfa
      exact ⟨ha, rfl⟩
    · rw [if_neg hc] at hfa
      exact absurd hfa (by simp)

/-- Counterexample to claim C4: on a judgment in the loose format, the
claimed second stage would credit the tactic quality 7 with confidence 85 —
module-02 does, but module-03 has no loose stage and returns no score. -/
theorem claim_C4_counterexample :
    tacticScoresStrict ["Role Prompting"] "Role Prompting looks fine. Score: 7/10".data = [] ∧
    reFind1 (reTacticLoose "Role Prompting")
      "Role Prompting looks fine. Score: 7/10".data = some 7 ∧
    tacticScoresM2 ["Role Prompting"] "Role Prompting looks fine. Score: 7/10".data =
      [("Role Prompting", 7, 85)] ∧
    tacticScoresM3 ["Role Prompting"] "Role Prompting looks fine. Score: 7/10".data = [] ∧
    tacticScoresM3 ["Role Prompting"] "Role Prompting looks fine. Score: 7/10".data ≠
      tacticScoresM2 ["Role Prompting"] "Role Prompting looks fine. Score: 7/10".data := by
  exact ⟨by decide, by decide, by decide, by decide, by decide⟩

/-- Claim C4 as amended: module-02 extracts per-tactic scores in three
stages (strict, loose with default confidence 85, skills section with 9/90),
each fallback used only when the previous stage matched no tactic; module-03
has only the strict and skills stages; in both, a tactic matched by no stage
is absent, every result entry names an expected tactic, every loose entry
carries confidence 85 and every skills entry carries (9, 90). -/
theorem claim_C4_amended :
    (∀ (tactics : List String) (t : List Char), tacticScoresStrict tactics t ≠ [] →
      tacticScoresM2 tactics t = tacticScoresStrict tactics t ∧
      tacticScoresM3 tactics t = tacticScoresStrict tactics t) ∧
    (∀ (tactics : List String) (t : List Char), tacticScoresStrict tactics t = [] →
      tacticScoresLoose tactics t ≠ [] →
      tacticScoresM2 tactics t = tacticScoresLoose tactics t) ∧
    (∀ (tactics : List String) (t : List Char), tacticScoresStrict tactics t = [] →
      tacticScoresLoose tactics t = [] →
      tacticScoresM2 tactics t = tacticScoresSkills tactics t) ∧
    (∀ (tactics : List String) (t : List Char), tacticScoresStrict tactics t = [] →
      tacticScoresM3 tactics t = tacticScoresSkills tactics t) ∧
    (∀ (tactics : List String) (t : List Char) (e : String × Nat × Nat),
      e ∈ tacticScoresM2 tactics t → e.1 ∈ tactics) ∧
    (∀ (tactics : List String) (t : List Char) (e : String × Nat × Nat),
      e ∈ tacticScoresM3 tactics t → e.1 ∈ tactics) ∧
    (∀ (tactics : List String) (t : List Char) (e : String × Nat × Nat),
      e ∈ tacticScoresLoose tactics t → e.2.2 = 85) ∧
    (∀ (tactics : List String) (t : List Char) (e : String × Nat × Nat),
      e ∈ tacticScoresSkills tactics t → e.2 = (9, 90)) := by
  refine ⟨?_, ?_, ?_, ?_, ?_, ?_, ?_, ?_⟩
  · intro tactics t h
    constructor <;>
      simp [tacticScoresM2, tacticScoresM3, List.isEmpty_eq_false.mpr h]
  · intro tactics t h1 h2
    simp [tacticScoresM2, h1, List.isEmpty_eq_false.mpr h2]
  · intro tactics t h1 h2
    simp [tacticScoresM2, h1, h2]
  · intro tactics t h1
    simp [tacticScoresM3, h1]
  · intro tactics t e h
    revert h
    simp only [tacticScoresM2]
    by_cases h1 : (tacticScoresStrict tactics t).isEmpty = true
    · rw [if_pos h1]
      by_cases h2 : (tacticScoresLoose tactics t).isEmpty = true
      · rw [if_pos h2]
        exact fun h => (mem_tacticScoresSkills h).1
      · rw [if_neg h2]
        exact fun h => (mem_tacticScoresLoose h).1
    · rw [if_neg h1]
      exact fun h => mem_tacticScoresStrict h
  · intro tactics t e h
    revert h
    simp only [tacticScoresM3]
    by_cases h1 : (tacticScoresStrict tactics t).isEmpty = true
    · rw [if_pos h1]
      exact fun h => (mem_tacticScoresSkills h).1
    · rw [if_neg h1]
      exact fun h => mem_tacticScoresStrict h
  · intro tactics t e h
    exact (mem_tacticScoresLoose h).2
  · intro tactics t e h
    exact (mem_tacticScoresSkills h).2

/-- Witness for C4: concrete judgments exercising the strict stage, the
loose stage (module-02) and the skills stage (both modules). -/
theorem claim_C4_witness :
    (tacticScoresStrict ["Role Prompting"]
        "**Role Prompting**: OK (Quality Score: 8/10, Confidence: 92%)".data ≠ [] ∧
      tacticScoresM2 ["Role Prompting"]
        "**Role Prompting**: OK (Quality Score: 8/10, Confidence: 92%)".data =
        tacticScoresStrict ["Role Prompting"]
          "**Role Prompting**: OK (Quality Score: 8/10, Confidence: 92%)".data ∧
      tacticScoresM3 ["Role Prompting"]
        "**Role Prompting**: OK (Quality Score: 8/10, Confidence: 92%)".data =
        tacticScoresStrict ["Role Prompting"]
          "**Role Prompting**: OK (Quality Score: 8/10, Confidence: 92%)".data) ∧
    (tacticScoresStrict ["Role Prompting"] "Role Prompting looks fine. Score: 7/10".data = [] ∧
      tacticScoresLoose ["Role Prompting"] "Role Prompting looks fine. Score: 7/10".data ≠ [] ∧
      tacticScoresM2 ["Role Prompting"] "Role Prompting looks fine. Score: 7/10".data =
        tacticScoresLoose ["Role Prompting"] "Role Prompting looks fine. Score: 7/10".data) ∧
    (tacticScoresStrict ["Role Prompting"]
        "<skills_demonstrated>\n- Skill: Role Prompting - good persona\n</skills_demonstrated>".data = [] ∧
      tacticScoresLoose ["Role Prompting"]
        "<skills_demonstrated>\n- Skill: Role Prompting - good persona\n</skills_demonstrated>".data = [] ∧
      tacticScoresM2 ["Role Prompting"]
        "<skills_demonstrated>\n- Skill: Role Prompting - good persona\n</skills_demonstrated>".data =
        tacticScoresSkills ["Role Prompting"]
          "<skills_demonstrated>\n- Skill: Role Prompting - good persona\n</skills_demonstrated>".data ∧
      tacticScoresM3 ["Role Prompting"]
        "<skills_demonstrated>\n- Skill: Role Prompting - good persona\n</skills_demonstrated>".data =
        tacticScoresSkills ["Role Prompting"]
          "<skills_demonstrated>\n- Skill: Role Prompting - good persona\n</skills_demonstrated>".data ∧
      tacticScoresSkills ["Role Prompting"]
        "<skills_demonstrated>\n- Skill: Role Prompting - good persona\n</skills_demonstrated>".data =
        [("Role Prompting", 9, 90)]) :=
  ⟨⟨by decide, (claim_C4_amended.1 _ _ (by decide)).1, (claim_C4_amended.1 _ _ (by decide)).2⟩,
   ⟨by decide, by decide, claim_C4_amended.2.1 _ _ (by decide) (by decide)⟩,
   ⟨by decide, by decide, claim_C4_amended.2.2.1 _ _ (by decide) (by decide),
    claim_C4_amended.2.2.2.1 _ _ (by decide), by decide⟩⟩

/-- Counterexample to claim C5: a provider failure is converted to an error
string inside the completion helper, so the comparator returns overall
similarity 50 with `has_reference` true — not 0 with `has_reference`
false as claimed. -/
theorem claim_C5_counterexample :
    (calcSemanticSimilarityVia (.error "boom")).overall_similarity = 50 ∧
    (calcSemanticSimilarityVia (.error "boom")).has_reference = true ∧
    ¬ ((calcSemanticSimilarityVia (.error "boom")).overall_similarity = 0 ∧
       (calcSemanticSimilarityVia (.error "boom")).has_reference = false) := by
  exact ⟨by decide, by decide, by decide⟩

/-- Claim C5 as amended: only an exception raised by the completion call
itself yields overall similarity 0 with `has_reference` false; a provider
failure is turned into an error string by the completion helper and the
comparator then returns the no-match default 50 with `has_reference` true;
any returned text without the single similarity-regex match also yields 50,
and a matching text yields the matched percentage. -/
theorem claim_C5_amended :
    (∀ e : String, calcSemanticSimilarity (.error e) =
      ⟨0, "Error calculating similarity: " ++ e, false⟩) ∧
    (∀ resp : String, reFind1 reSimilarity resp.data = none →
      calcSemanticSimilarity (.ok resp) = ⟨50, resp, true⟩) ∧
    (∀ (resp : String) (n : Nat), reFind1 reSimilarity resp.data = some n →
      calcSemanticSimilarity (.ok resp) = ⟨n, resp, true⟩) ∧
    ((calcSemanticSimilarityVia (.error "proxy down")).overall_similarity = 50 ∧
      (calcSemanticSimilarityVia (.error "proxy down")).has_reference = true) := by
  refine ⟨fun e => rfl, ?_, ?_, by decide, by decide⟩
  · intro resp h
    simp [calcSemanticSimilarity, h]
  · intro resp n h
    simp [calcSemanticSimilarity, h]

/-- Witness for C5: a response without the similarity line defaults to 50; a
response carrying the line yields its percentage. -/
theorem claim_C5_witness :
    (reFind1 reSimilarity "no similarity line here".data = none ∧
      calcSemanticSimilarity (.ok "no similarity line here") =
        ⟨50, "no similarity line here", true⟩) ∧
    (reFind1 reSimilarity "**Overall Semantic Similarity**: 78% (average of above)".data =
        some 78 ∧
      calcSemanticSimilarity (.ok "**Overall Semantic Similarity**: 78% (average of above)") =
        ⟨78, "**Overall Semantic Similarity**: 78% (average of above)", true⟩) :=
  ⟨⟨by decide, claim_C5_amended.2.1 _ (by decide)⟩,
   ⟨by decide, claim_C5_amended.2.2.1 _ 78 (by decide)⟩⟩
